import Mathlib

/-!
Verification development for the WhatSafe repository: a WhatsApp-transcript
boycott-risk analyzer.  The repository consists of a keyword-based core
analysis engine (exposed by a detection backend), a NestJS server that
validates requests and proxies them to that backend (`analysis.service.ts`,
`openai.service.ts`, `analysis.controller`, `analyze.dto`, `main`
bootstrap), and a React frontend.

The core engine (`whatsafe_detector.py`) is not among the available
sources; its behaviour is modelled here from the specification
(transcript parser, statistics aggregator, keyword classifier, risk
scorer, risk classifier, target detector, orchestrator).  The NestJS
service layer is embedded directly from the TypeScript sources.
Numbers are modelled with `Nat` and `ℚ`.
-/

namespace WhatSafe

/-! ## A small JSON value model, used to state output-shape contracts. -/

/-- JSON values: null, booleans, numbers (modelled as rationals),
strings, arrays and objects (ordered field lists). -/
inductive Json where
  | null : Json
  | jbool : Bool → Json
  | jnum : ℚ → Json
  | jstr : String → Json
  | jarr : List Json → Json
  | jobj : List (String × Json) → Json

/-- The field names of a JSON object, in order; `[]` for non-objects. -/
def jsonKeys : Json → List String
  | Json.jobj fields => fields.map (fun f => f.1)
  | _ => []

/-! ## Core data model (spec §3). -/

/-- One logical utterance of the transcript (spec §3 `Message`). -/
structure Message where
  sender : Option String
  timestamp : Option String
  text : String
  is_system : Bool
  is_boycott_related : Bool
deriving DecidableEq

/-- Per-sender counters (spec §3 `SenderStats`). -/
structure SenderStats where
  messages : Nat
  chars : Nat
  boycott_msgs : Nat
deriving DecidableEq

/-- The aggregate risk signals (spec §3 `RiskSignals`). -/
structure RiskSignals where
  boycott_risk : ℚ
  keyword_ratio : ℚ
  sender_concentration : ℚ
  total_messages : Nat
  boycott_messages : Nat
deriving DecidableEq

/-- The orchestrator's result (spec §3 `AnalysisResult`).  Per-sender
stats are an ordered association list keyed by the sender's exact name,
mirroring a JSON object in first-occurrence order. -/
structure AnalysisResult where
  label : String
  risk_signals : RiskSignals
  per_sender_stats : List (String × SenderStats)
  potential_target : Option String
  target_mentions : List (String × Nat)
deriving DecidableEq

/-- Modelled from the spec: the immutable configuration injected into the
orchestrator (spec §9) — the keyword vocabulary, the scorer's two weights
and the three ascending classifier thresholds.  The exact weight and
threshold values are an open question of the spec (§9); they are named
constants here. -/
structure Config where
  keywords : List String
  wKeyword : ℚ
  wConcentration : ℚ
  lowThreshold : ℚ
  medThreshold : ℚ
  highThreshold : ℚ
deriving DecidableEq

/-- Modelled from the spec: the default configuration.  Weights sum to 1
so that the boundary conditions of spec §4.4 hold; thresholds are
ascending over `[0,1]` as required by spec §4.5. -/
def defaultConfig : Config :=
  { keywords := ["boycott", "חרם", "להחרים"]
    wKeyword := 7 / 10
    wConcentration := 3 / 10
    lowThreshold := 1 / 5
    medThreshold := 1 / 2
    highThreshold := 4 / 5 }

/-! ## Transcript parser (spec §4.1), modelled from the spec:
`whatsafe_detector.py`'s `parse_whatsapp_lines` is not among the sources. -/

/-- Is `needle` equal to some leading segment of `haystack`? -/
def charsLeads : List Char → List Char → Bool
  | [], _ => true
  | _ :: _, [] => false
  | a :: as, b :: bs => a == b && charsLeads as bs

/-- Split a character list on a single separator character; like
`String.splitOn`, the empty input yields one empty field. -/
def splitChar (sep : Char) : List Char → List (List Char)
  | [] => [[]]
  | c :: rest =>
    if c = sep then [] :: splitChar sep rest
    else
      match splitChar sep rest with
      | [] => [[c]]
      | l :: ls => (c :: l) :: ls

/-- Split a character list at the first occurrence of `sep`, when
present, dropping the separator. -/
def splitFirstChars (sep : List Char) : List Char → Option (List Char × List Char)
  | [] => none
  | c :: rest =>
    if charsLeads sep (c :: rest) then some ([], (c :: rest).drop sep.length)
    else
      match splitFirstChars sep rest with
      | none => none
      | some (l, r) => some (c :: l, r)

/-- Split a string at the first occurrence of `sep`, when present. -/
def splitFirst (sep s : String) : Option (String × String) :=
  match splitFirstChars sep.toList s.toList with
  | none => none
  | some (l, r) => some (String.mk l, String.mk r)

/-- Drop a trailing carriage return, so any newline convention is
accepted (spec §4.1). -/
def stripCR (line : List Char) : List Char :=
  match line.getLast? with
  | some c => if c = '\r' then line.dropLast else line
  | none => line

/-- Split raw text into physical lines. -/
def splitLines (raw : String) : List String :=
  (splitChar '\n' raw.toList).map (fun l => String.mk (stripCR l))

/-- Modelled from the spec: does a string look like the `<date>, <time>`
part of a WhatsApp header — nonempty, starting with a digit and
containing a comma (tolerant of the format variants of spec §4.1)? -/
def looksLikeDateTime (s : String) : Bool :=
  match s.toList with
  | [] => false
  | c :: rest => c.isDigit && rest.contains ','

/-- Modelled from the spec: parse one physical line against the header
pattern `<date>, <time> - <sender>: <body>` (spec §4.1).  The sender
boundary is the first `": "` occurring after the matched `" - "`
separator.  A header without a `": "` segment is a system notice
(`is_system = true`, no sender).  A non-header line yields `none` and is
treated as a continuation. -/
def headerParse (line : String) : Option Message :=
  match splitFirst " - " line with
  | none => none
  | some (dt, rest) =>
    if looksLikeDateTime dt then
      match splitFirst ": " rest with
      | some (sender, body) =>
        some { sender := some sender, timestamp := some dt, text := body
               is_system := false, is_boycott_related := false }
      | none =>
        some { sender := none, timestamp := some dt, text := rest
               is_system := true, is_boycott_related := false }
    else none

/-- Modelled from the spec: one step of the left fold of spec §9 — a
header line starts a new message; any other line is appended (with a
newline) to the most recently started message, or discarded when no
message exists yet.  The accumulator holds the messages in reverse
order, newest first. -/
def foldLine (acc : List Message) (line : String) : List Message :=
  match headerParse line with
  | some m => m :: acc
  | none =>
    match acc with
    | [] => []
    | m :: rest => { m with text := m.text ++ "\n" ++ line } :: rest

/-- Modelled from the spec: `parse_whatsapp_lines` — fold every physical
line, never failing (spec §4.1). -/
def parse_whatsapp_lines (raw : String) : List Message :=
  ((splitLines raw).foldl foldLine []).reverse

/-! ## Keyword classifier (spec §4.2), modelled from the spec. -/

/-- Substring containment over character lists. -/
def charsContain (needle : List Char) : List Char → Bool
  | [] => charsLeads needle []
  | b :: bs => charsLeads needle (b :: bs) || charsContain needle bs

/-- ASCII-range lowercasing of a string's characters. -/
def lowerChars (s : String) : List Char :=
  s.toList.map Char.toLower

/-- Case-insensitive substring containment over strings. -/
def containsSub (needle haystack : String) : Bool :=
  charsContain (lowerChars needle) (lowerChars haystack)

/-- Modelled from the spec: a message body is boycott-related when it
contains, case-insensitively, any configured keyword as a substring
(deliberately permissive; spec §4.2). -/
def isBoycottRelated (cfg : Config) (text : String) : Bool :=
  cfg.keywords.any (fun kw => containsSub kw text)

/-! ## Statistics aggregator (spec §4.3), modelled from the spec. -/

/-- Account one message (text length `len`, boycott flag `b`) to sender
`s` in an ordered association list, keyed by exact string equality. -/
def bumpStats (stats : List (String × SenderStats)) (s : String)
    (len : Nat) (b : Bool) : List (String × SenderStats) :=
  match stats with
  | [] => [(s, { messages := 1, chars := len, boycott_msgs := if b then 1 else 0 })]
  | (k, st) :: rest =>
    if k = s then
      (k, { messages := st.messages + 1, chars := st.chars + len
            boycott_msgs := st.boycott_msgs + (if b then 1 else 0) }) :: rest
    else (k, st) :: bumpStats rest s len b

/-- The messages that enter per-sender statistics: non-system messages
that carry a sender (spec §4.3). -/
def eligibleMessages (msgs : List Message) : List Message :=
  msgs.filter (fun m => !m.is_system && m.sender.isSome)

/-- Modelled from the spec: `compute_basic_stats` — a single pass
folding each message into its sender's counters (spec §4.3). -/
def compute_basic_stats (msgs : List Message) : List (String × SenderStats) :=
  msgs.foldl
    (fun acc m => bumpStats acc (m.sender.getD "") m.text.length m.is_boycott_related) []

/-- Sum of the `messages` counters over all senders. -/
def sumSenderMessages (stats : List (String × SenderStats)) : Nat :=
  (stats.map (fun e => e.2.messages)).sum

/-- Sum of the `boycott_msgs` counters over all senders. -/
def sumSenderBoycott (stats : List (String × SenderStats)) : Nat :=
  (stats.map (fun e => e.2.boycott_msgs)).sum

/-- The largest per-sender message count (0 when there are no senders). -/
def maxSenderMessages (stats : List (String × SenderStats)) : Nat :=
  (stats.map (fun e => e.2.messages)).foldl max 0

/-! ## Risk scorer and classifier (spec §4.4–§4.5), modelled from the spec. -/

/-- Modelled from the spec: `score_boycott_risk` — a weighted combination
of the two normalized signals; pure, deterministic and monotone in each
signal (spec §4.4).  The exact weighting is configuration (spec §9). -/
def score_boycott_risk (cfg : Config) (keyword_ratio sender_concentration : ℚ) : ℚ :=
  cfg.wKeyword * keyword_ratio + cfg.wConcentration * sender_concentration

/-- Modelled from the spec: `classify_boycott` — ascending threshold
bands over `[0,1]`, inclusive on each band's lower edge (spec §4.5). -/
def classify_boycott (cfg : Config) (risk : ℚ) : String :=
  if risk < cfg.lowThreshold then "NONE"
  else if risk < cfg.medThreshold then "LOW"
  else if risk < cfg.highThreshold then "MEDIUM"
  else "HIGH"

/-! ## Target detector (spec §4.6), modelled from the spec. -/

/-- Modelled from the spec: candidate name spans of one message body —
the capitalized-token heuristic of spec §4.6. -/
def candidateTokens (text : String) : List String :=
  ((splitChar ' ' text.toList).filter (fun t =>
    match t with
    | [] => false
    | c :: _ => c.isUpper)).map String.mk

/-- Count occurrences per distinct candidate, keeping first-occurrence
order of the keys. -/
def bumpCount (counts : List (String × Nat)) (c : String) : List (String × Nat) :=
  match counts with
  | [] => [(c, 1)]
  | (k, n) :: rest =>
    if k = c then (k, n + 1) :: rest else (k, n) :: bumpCount rest c

/-- Count all candidates of a token list. -/
def countCandidates (cands : List String) : List (String × Nat) :=
  cands.foldl bumpCount []

/-- Insert a pair into a count-descending list, before the first entry
of strictly smaller count (so earlier-seen candidates stay ahead on
ties). -/
def insertByCount (p : String × Nat) : List (String × Nat) → List (String × Nat)
  | [] => [p]
  | q :: rest =>
    if q.2 ≤ p.2 then p :: q :: rest else q :: insertByCount p rest

/-- Stable sort by descending count. -/
def sortByCountDesc (l : List (String × Nat)) : List (String × Nat) :=
  l.foldr insertByCount []

/-- Modelled from the spec: `detect_potential_target` — count candidate
names across the flagged messages, rank by descending count (stable on
first occurrence), and return the top candidate, or `none` when there
are no flagged messages or no candidates (spec §4.6). -/
def detect_potential_target (flagged : List Message) :
    Option String × List (String × Nat) :=
  let cands := (flagged.map (fun m => candidateTokens m.text)).flatten
  let ranked := sortByCountDesc (countCandidates cands)
  match ranked with
  | [] => (none, ranked)
  | (name, _) :: _ => (some name, ranked)

/-! ## Orchestrator (spec §4.7), modelled from the spec. -/

/-- The parsed messages with their derived boycott flag filled in. -/
def classifiedMessages (raw : String) (cfg : Config) : List Message :=
  (parse_whatsapp_lines raw).map (fun m =>
    { m with is_boycott_related := isBoycottRelated cfg m.text })

/-- The statistics-eligible messages of one analysis invocation. -/
def analyzeEligible (raw : String) (cfg : Config) : List Message :=
  eligibleMessages (classifiedMessages raw cfg)

/-- `keyword_ratio`: boycott messages over all messages, 0 when there
are no messages (spec §3, division-by-zero guard of spec §7). -/
def keywordRatio (total boyc : Nat) : ℚ :=
  if total = 0 then 0 else (boyc : ℚ) / (total : ℚ)

/-- `sender_concentration`: the most active sender's share, 0 when there
are no messages (spec §3, division-by-zero guard of spec §7). -/
def senderConcentration (total maxMsgs : Nat) : ℚ :=
  if total = 0 then 0 else (maxMsgs : ℚ) / (total : ℚ)

/-- Modelled from the spec: `analyze_whatsapp_text_export` — the pure
orchestrator composing parser, classifier, aggregator, scorer,
classifier and target detector (spec §4.7). -/
def analyze (raw : String) (cfg : Config) : AnalysisResult :=
  let eligible := analyzeEligible raw cfg
  let stats := compute_basic_stats eligible
  let total := eligible.length
  let boyc := eligible.countP (fun m => m.is_boycott_related)
  let kr := keywordRatio total boyc
  let sc := senderConcentration total (maxSenderMessages stats)
  let risk := score_boycott_risk cfg kr sc
  let tgt := detect_potential_target (eligible.filter (fun m => m.is_boycott_related))
  { label := classify_boycott cfg risk
    risk_signals :=
      { boycott_risk := risk, keyword_ratio := kr, sender_concentration := sc
        total_messages := total, boycott_messages := boyc }
    per_sender_stats := stats
    potential_target := tgt.1
    target_mentions := tgt.2 }

/-! ## JSON serialization of the core result (spec §6 output contract). -/

/-- Serialize one sender's counters as `{messages, chars, boycott_msgs}`. -/
def senderStatsToJson (st : SenderStats) : Json :=
  Json.jobj
    [("messages", Json.jnum st.messages), ("chars", Json.jnum st.chars),
     ("boycott_msgs", Json.jnum st.boycott_msgs)]

/-- Serialize a `(name, count)` mention as a two-element array. -/
def mentionToJson (p : String × Nat) : Json :=
  Json.jarr [Json.jstr p.1, Json.jnum p.2]

/-- Serialize the risk signals object. -/
def riskSignalsToJson (rs : RiskSignals) : Json :=
  Json.jobj
    [("boycott_risk", Json.jnum rs.boycott_risk),
     ("keyword_ratio", Json.jnum rs.keyword_ratio),
     ("sender_concentration", Json.jnum rs.sender_concentration),
     ("total_messages", Json.jnum rs.total_messages),
     ("boycott_messages", Json.jnum rs.boycott_messages)]

/-- Serialize an `AnalysisResult` exactly as the spec §6 output contract
lays it out. -/
def analysisResultToJson (r : AnalysisResult) : Json :=
  Json.jobj
    [("label", Json.jstr r.label),
     ("risk_signals", riskSignalsToJson r.risk_signals),
     ("per_sender_stats",
       Json.jobj (r.per_sender_stats.map (fun e => (e.1, senderStatsToJson e.2)))),
     ("potential_target",
       match r.potential_target with
       | none => Json.null
       | some t => Json.jstr t),
     ("target_mentions", Json.jarr (r.target_mentions.map mentionToJson))]

/-- Does a JSON value have the `{messages, chars, boycott_msgs}` shape of
a `SenderStats` object? -/
def senderStatsShape : Json → Bool
  | Json.jobj [("messages", Json.jnum _), ("chars", Json.jnum _),
               ("boycott_msgs", Json.jnum _)] => true
  | _ => false

/-- Does a JSON value have the `[name, count]` pair shape? -/
def mentionShape : Json → Bool
  | Json.jarr [Json.jstr _, Json.jnum _] => true
  | _ => false

/-- Does a JSON value have the `risk_signals` object shape? -/
def riskSignalsShape : Json → Bool
  | Json.jobj [("boycott_risk", Json.jnum _), ("keyword_ratio", Json.jnum _),
               ("sender_concentration", Json.jnum _),
               ("total_messages", Json.jnum _),
               ("boycott_messages", Json.jnum _)] => true
  | _ => false

/-- Does a JSON value have exactly the `AnalysisResult` shape of spec §6:
`label` a string, `risk_signals` with its five numeric fields,
`per_sender_stats` an object of `SenderStats` objects, `potential_target`
a string or null, `target_mentions` an array of `[name, count]` pairs? -/
def analysisResultShape : Json → Bool
  | Json.jobj [("label", Json.jstr _), ("risk_signals", rs),
               ("per_sender_stats", Json.jobj senders),
               ("potential_target", pt), ("target_mentions", Json.jarr tms)] =>
    riskSignalsShape rs
      && senders.all (fun e => senderStatsShape e.2)
      && (match pt with
          | Json.null => true
          | Json.jstr _ => true
          | _ => false)
      && tms.all mentionShape
  | _ => false

/-! ## NestJS service layer, embedded from the TypeScript sources. -/

/-- The errors the Nest layer can raise: `ServiceUnavailableException`,
`InternalServerErrorException`, the `ValidationPipe`'s 400, and the
transport body-size rejection. -/
inductive NestError where
  | serviceUnavailable : String → NestError
  | internalServerError : String → NestError
  | badRequest : String → NestError
  | payloadTooLarge : NestError
deriving DecidableEq

/-- From `analyze.dto.ts`: `AnalyzeDto` requires `content` to be a string
of `MinLength(1)`; the global `ValidationPipe` enforces it. -/
def validateContent (content : String) : Bool :=
  decide (1 ≤ content.length)

/-- From `main.ts` bootstrap: `json({ limit: '5mb' })` — the express
body-size cap, `5mb` = 5·2²⁰ bytes. -/
def bodyLimitBytes : Nat := 5 * 1024 * 1024

/-- An HTTP response from the detection backend, as `proxyAnalyze`
observes it: `ok`, `status`, the body text, and the body parsed as
JSON (what `res.json()` yields). -/
structure HttpResponse where
  ok : Bool
  status : Nat
  bodyText : String
  bodyJson : Json

/-- JavaScript `text.slice(0, n)`: the first `n` characters. -/
def jsSlice (s : String) (n : Nat) : String :=
  String.mk (s.toList.take n)

/-- From `analysis.service.ts` `proxyAnalyze`: a non-OK backend response
becomes `{error: 'detection_error', status, detail}` with the body
truncated to 500 characters; an OK response's JSON body is returned
unchanged.  No branch throws. -/
def proxyAnalyze (res : HttpResponse) : Json :=
  if res.ok then res.bodyJson
  else
    Json.jobj
      [("error", Json.jstr "detection_error"),
       ("status", Json.jnum res.status),
       ("detail", Json.jstr (jsSlice res.bodyText 500))]

/-- The fields of the JSON object the model returns, each optional:
`JSON.parse` of the model message may omit any of them
(`openai.service.ts` reads them with `??` defaults). -/
structure ModelJson where
  boycott_detected : Option Bool
  confidence : Option ℚ
  risk_level : Option String
  reasoning : Option String
  boycott_details : Option String
  potential_targets : Option (List String)
deriving DecidableEq

/-- The structure of the alternate-path result built in
`openai.service.ts` (mirrors the frontend's `AIResult` type). -/
structure AIResult where
  source : String
  label : String
  boycott_detected : Bool
  confidence : ℚ
  risk_level : String
  reasoning : String
  boycott_details : String
  potential_targets : List String
  model_used : String
deriving DecidableEq

/-- JavaScript `s.toUpperCase()` on the ASCII range. -/
def jsToUpper (s : String) : String :=
  String.mk (s.toList.map Char.toUpper)

/-- From `openai.service.ts`: the success object —
`label = (parsed.risk_level ?? 'unknown').toUpperCase() + ' risk'` and
each remaining field filled from `parsed` with its `??` default. -/
def buildAIResult (parsed : ModelJson) : AIResult :=
  { source := "openai-ai-analysis"
    label := jsToUpper (parsed.risk_level.getD "unknown") ++ " risk"
    boycott_detected := parsed.boycott_detected.getD false
    confidence := parsed.confidence.getD 0
    risk_level := parsed.risk_level.getD "none"
    reasoning := parsed.reasoning.getD ""
    boycott_details := parsed.boycott_details.getD ""
    potential_targets := parsed.potential_targets.getD []
    model_used := "gpt-4o-mini" }

/-- Serialize an `AIResult` with the key order of `openai.service.ts`. -/
def aiResultToJson (r : AIResult) : Json :=
  Json.jobj
    [("source", Json.jstr r.source),
     ("label", Json.jstr r.label),
     ("boycott_detected", Json.jbool r.boycott_detected),
     ("confidence", Json.jnum r.confidence),
     ("risk_level", Json.jstr r.risk_level),
     ("reasoning", Json.jstr r.reasoning),
     ("boycott_details", Json.jstr r.boycott_details),
     ("potential_targets", Json.jarr (r.potential_targets.map Json.jstr)),
     ("model_used", Json.jstr r.model_used)]

/-- The outcome of the model round trip inside the `try` block of
`analyzeWithOpenAI`: either the parsed JSON object of the model's reply,
or the message of the exception the call (or `JSON.parse`) threw. -/
def ModelOutcome := Except String ModelJson

/-- The server's process environment, as far as the analysis module reads
it: the optional `OPENAI_API_KEY`. -/
structure ServerCtx where
  env_key : Option String
deriving DecidableEq

/-- From `openai.service.ts` constructor: the client exists exactly when
`OPENAI_API_KEY` is set. -/
def mkOpenAIClient (ctx : ServerCtx) : Option String :=
  ctx.env_key

/-- From `openai.service.ts` `analyzeWithOpenAI`: without a client it
throws `ServiceUnavailableException('OpenAI not configured')` before any
model call; with a client, a throwing round trip becomes an
`InternalServerErrorException`, and a parsed reply becomes the
`buildAIResult` object. -/
def analyzeWithOpenAI (client : Option String) (outcome : Except String ModelJson) :
    Except NestError AIResult :=
  match client with
  | none => Except.error (NestError.serviceUnavailable "OpenAI not configured")
  | some _ =>
    match outcome with
    | Except.error msg =>
        Except.error (NestError.internalServerError ("OpenAI error: " ++ msg))
    | Except.ok parsed => Except.ok (buildAIResult parsed)

/-- The `POST /api/analyze-text-ai` endpoint: `ValidationPipe` on
`AnalyzeDto`, then `OpenAIService.analyzeWithOpenAI`.  The raw `content`
itself never influences which branch is taken. -/
def analyzeTextAIEndpoint (ctx : ServerCtx) (content : String)
    (outcome : Except String ModelJson) : Except NestError AIResult :=
  if validateContent content then analyzeWithOpenAI (mkOpenAIClient ctx) outcome
  else Except.error (NestError.badRequest "content must be longer than or equal to 1 characters")

/-- The `POST /api/analyze-text` endpoint: `ValidationPipe` on
`AnalyzeDto`, then `AnalysisService.proxyAnalyze` against the backend's
response.  It takes the server context only to state that it ignores it:
the keyword path reads no credential. -/
def analyzeTextEndpoint (ctx : ServerCtx) (content : String)
    (res : HttpResponse) : Except NestError Json :=
  if validateContent content then
    let _ := ctx
    Except.ok (proxyAnalyze res)
  else Except.error (NestError.badRequest "content must be longer than or equal to 1 characters")

/-- The whole keyword-analysis pipeline for one request, with the
detection backend modelled by the spec-modelled engine: the express body
cap (from `main.ts`), then `AnalyzeDto` validation, then the engine on
the forwarded content, unchanged. -/
def analyzeTextPipeline (raw : String) : Except NestError AnalysisResult :=
  if bodyLimitBytes < raw.utf8ByteSize then Except.error NestError.payloadTooLarge
  else if validateContent raw then Except.ok (analyze raw defaultConfig)
  else Except.error (NestError.badRequest "content must be longer than or equal to 1 characters")

/-! ## Helper lemmas. -/

theorem sumSenderMessages_bump (stats : List (String × SenderStats)) (s : String)
    (len : Nat) (b : Bool) :
    sumSenderMessages (bumpStats stats s len b) = sumSenderMessages stats + 1 := by
  induction stats with
  | nil => simp [sumSenderMessages, bumpStats]
  | cons e rest ih =>
    obtain ⟨k, st⟩ := e
    by_cases h : k = s
    · simp [sumSenderMessages, bumpStats, h]
      omega
    · simp only [sumSenderMessages, bumpStats, if_neg h, List.map_cons, List.sum_cons] at *
      omega

theorem sumSenderBoycott_bump (stats : List (String × SenderStats)) (s : String)
    (len : Nat) (b : Bool) :
    sumSenderBoycott (bumpStats stats s len b)
      = sumSenderBoycott stats + (if b then 1 else 0) := by
  induction stats with
  | nil => simp [sumSenderBoycott, bumpStats]
  | cons e rest ih =>
    obtain ⟨k, st⟩ := e
    by_cases h : k = s
    · simp [sumSenderBoycott, bumpStats, h]
      omega
    · simp only [sumSenderBoycott, bumpStats, if_neg h, List.map_cons, List.sum_cons] at *
      omega

theorem all_le_bump (stats : List (String × SenderStats)) (s : String)
    (len : Nat) (b : Bool)
    (h : stats.all (fun e => decide (e.2.boycott_msgs ≤ e.2.messages)) = true) :
    (bumpStats stats s len b).all
        (fun e => decide (e.2.boycott_msgs ≤ e.2.messages)) = true := by
  induction stats with
  | nil => cases b <;> simp [bumpStats]
  | cons e rest ih =>
    obtain ⟨k, st⟩ := e
    simp only [List.all_cons, Bool.and_eq_true, decide_eq_true_eq] at h
    by_cases hk : k = s
    · simp only [bumpStats, if_pos hk, List.all_cons, Bool.and_eq_true, decide_eq_true_eq]
      refine ⟨?_, ?_⟩
      · cases b <;> simp <;> omega
      · simpa using h.2
    · simp only [bumpStats, if_neg hk, List.all_cons, Bool.and_eq_true, decide_eq_true_eq]
      exact ⟨h.1, by simpa using ih (by simpa using h.2)⟩

/-- The fold step of `compute_basic_stats`. -/
def statsStep (acc : List (String × SenderStats)) (m : Message) :
    List (String × SenderStats) :=
  bumpStats acc (m.sender.getD "") m.text.length m.is_boycott_related

theorem compute_basic_stats_eq_foldl (msgs : List Message) :
    compute_basic_stats msgs = msgs.foldl statsStep [] := rfl

theorem sumSenderMessages_foldl (msgs : List Message)
    (acc : List (String × SenderStats)) :
    sumSenderMessages (msgs.foldl statsStep acc)
      = sumSenderMessages acc + msgs.length := by
  induction msgs generalizing acc with
  | nil => simp
  | cons m rest ih =>
    simp only [List.foldl_cons, List.length_cons, ih, statsStep, sumSenderMessages_bump]
    omega

theorem sumSenderBoycott_foldl (msgs : List Message)
    (acc : List (String × SenderStats)) :
    sumSenderBoycott (msgs.foldl statsStep acc)
      = sumSenderBoycott acc + msgs.countP (fun m => m.is_boycott_related) := by
  induction msgs generalizing acc with
  | nil => simp
  | cons m rest ih =>
    simp only [List.foldl_cons, List.countP_cons, ih, statsStep, sumSenderBoycott_bump]
    cases hb : m.is_boycott_related <;> (simp; try omega)

theorem all_le_foldl (msgs : List Message) (acc : List (String × SenderStats))
    (h : acc.all (fun e => decide (e.2.boycott_msgs ≤ e.2.messages)) = true) :
    (msgs.foldl statsStep acc).all
        (fun e => decide (e.2.boycott_msgs ≤ e.2.messages)) = true := by
  induction msgs generalizing acc with
  | nil => simpa using h
  | cons m rest ih =>
    exact ih _ (all_le_bump _ _ _ _ h)

/-! Accessors of `analyze`, all definitional. -/

theorem analyze_per_sender_stats (raw : String) (cfg : Config) :
    (analyze raw cfg).per_sender_stats
      = compute_basic_stats (analyzeEligible raw cfg) := rfl

theorem analyze_total_messages (raw : String) (cfg : Config) :
    (analyze raw cfg).risk_signals.total_messages
      = (analyzeEligible raw cfg).length := rfl

theorem analyze_boycott_messages (raw : String) (cfg : Config) :
    (analyze raw cfg).risk_signals.boycott_messages
      = (analyzeEligible raw cfg).countP (fun m => m.is_boycott_related) := rfl

theorem analyze_boycott_risk (raw : String) (cfg : Config) :
    (analyze raw cfg).risk_signals.boycott_risk
      = score_boycott_risk cfg
          (keywordRatio (analyzeEligible raw cfg).length
            ((analyzeEligible raw cfg).countP (fun m => m.is_boycott_related)))
          (senderConcentration (analyzeEligible raw cfg).length
            (maxSenderMessages (compute_basic_stats (analyzeEligible raw cfg)))) := rfl

/-- Any serialized `AnalysisResult` passes the spec §6 shape check. -/
theorem analysisResultShape_toJson (r : AnalysisResult) :
    analysisResultShape (analysisResultToJson r) = true := by
  cases hpt : r.potential_target
  all_goals
    simp [analysisResultToJson, analysisResultShape, riskSignalsToJson, riskSignalsShape,
      senderStatsToJson, senderStatsShape, mentionToJson, mentionShape, hpt,
      List.all_eq_true]
  all_goals
    refine ⟨?_, ?_⟩
    · rintro a b x st hmem hx rfl
      rfl
    · rintro x s n hmem rfl
      rfl

/-! ## Claim theorems. -/

/-- C1: for every input transcript and configuration, the sum of
`SenderStats.messages` over all senders equals
`RiskSignals.total_messages`, the sum of `SenderStats.boycott_messages`
over all senders equals `RiskSignals.boycott_messages`, and each
individual sender has `boycott_msgs ≤ messages`. -/
theorem stats_sums_match_totals (raw : String) (cfg : Config) :
    sumSenderMessages (analyze raw cfg).per_sender_stats
        = (analyze raw cfg).risk_signals.total_messages ∧
    sumSenderBoycott (analyze raw cfg).per_sender_stats
        = (analyze raw cfg).risk_signals.boycott_messages ∧
    ((analyze raw cfg).per_sender_stats.all
        (fun e => decide (e.2.boycott_msgs ≤ e.2.messages))) = true := by
  rw [analyze_per_sender_stats, analyze_total_messages, analyze_boycott_messages,
    compute_basic_stats_eq_foldl]
  refine ⟨?_, ?_, ?_⟩
  · simpa [sumSenderMessages] using
      sumSenderMessages_foldl (analyzeEligible raw cfg) []
  · simpa [sumSenderBoycott] using
      sumSenderBoycott_foldl (analyzeEligible raw cfg) []
  · exact all_le_foldl (analyzeEligible raw cfg) [] rfl

/-- C4: for every input and configuration, the keyword-analysis output
serializes to a JSON object with exactly the `AnalysisResult` shape —
`label` a string, `risk_signals` with its five numeric fields,
`per_sender_stats` an object of `{messages, chars, boycott_msgs}`
objects, `potential_target` a string or null, and `target_mentions` an
array of `[name, count]` pairs. -/
theorem analyze_output_shape (raw : String) (cfg : Config) :
    analysisResultShape (analysisResultToJson (analyze raw cfg)) = true :=
  analysisResultShape_toJson (analyze raw cfg)

/-- C5: running the analysis twice on identical input text and identical
configuration yields identical results, byte-identical once serialized —
the analysis is a pure function of `(rawText, config)` with no hidden
state. -/
theorem analyze_deterministic (raw₁ raw₂ : String) (cfg₁ cfg₂ : Config)
    (hraw : raw₁ = raw₂) (hcfg : cfg₁ = cfg₂) :
    analyze raw₁ cfg₁ = analyze raw₂ cfg₂ ∧
    analysisResultToJson (analyze raw₁ cfg₁)
      = analysisResultToJson (analyze raw₂ cfg₂) := by
  subst hraw
  subst hcfg
  exact ⟨rfl, rfl⟩

/-- Witness for C5 at a concrete transcript and the default
configuration. -/
theorem analyze_deterministic_witness :
    analyze "01/01/25, 12:00 - John: hello" defaultConfig
        = analyze "01/01/25, 12:00 - John: hello" defaultConfig ∧
    analysisResultToJson (analyze "01/01/25, 12:00 - John: hello" defaultConfig)
        = analysisResultToJson (analyze "01/01/25, 12:00 - John: hello" defaultConfig) :=
  analyze_deterministic "01/01/25, 12:00 - John: hello" "01/01/25, 12:00 - John: hello"
    defaultConfig defaultConfig rfl rfl

/-- Zero messages force both signals, and hence the risk, to 0 — for
any configuration, because the scorer has no constant term. -/
theorem analyze_risk_zero_of_no_messages (raw : String) (cfg : Config)
    (h : (analyze raw cfg).risk_signals.total_messages = 0) :
    (analyze raw cfg).risk_signals.boycott_risk = 0 := by
  rw [analyze_total_messages] at h
  rw [analyze_boycott_risk, h]
  simp [keywordRatio, senderConcentration, score_boycott_risk]

/-- C2: the default scorer is monotonically non-decreasing in
`keyword_ratio` with `sender_concentration` held fixed and vice versa,
its value lies in `[0,1]` whenever both inputs do, and an analysis with
zero messages has risk 0. -/
theorem scorer_contract (kr sc kr' sc' : ℚ)
    (hkr0 : 0 ≤ kr) (hkr1 : kr ≤ 1) (hsc0 : 0 ≤ sc) (hsc1 : sc ≤ 1)
    (_hkr0' : 0 ≤ kr') (_hkr1' : kr' ≤ 1) (_hsc0' : 0 ≤ sc') (_hsc1' : sc' ≤ 1) :
    (kr ≤ kr' →
      score_boycott_risk defaultConfig kr sc ≤ score_boycott_risk defaultConfig kr' sc) ∧
    (sc ≤ sc' →
      score_boycott_risk defaultConfig kr sc ≤ score_boycott_risk defaultConfig kr sc') ∧
    0 ≤ score_boycott_risk defaultConfig kr sc ∧
    score_boycott_risk defaultConfig kr sc ≤ 1 ∧
    (∀ (raw : String) (cfg : Config),
      (analyze raw cfg).risk_signals.total_messages = 0 →
      (analyze raw cfg).risk_signals.boycott_risk = 0) := by
  refine ⟨?_, ?_, ?_, ?_, fun raw cfg h => analyze_risk_zero_of_no_messages raw cfg h⟩ <;>
    simp only [score_boycott_risk, defaultConfig]
  · intro h
    linarith
  · intro h
    linarith
  · linarith
  · linarith

/-- Witness for C2 at `kr = sc = 0`, `kr' = sc' = 1`, with the
zero-message part instantiated at the empty transcript. -/
theorem scorer_contract_witness :
    ((0 : ℚ) ≤ 1 →
      score_boycott_risk defaultConfig 0 0 ≤ score_boycott_risk defaultConfig 1 0) ∧
    ((0 : ℚ) ≤ 1 →
      score_boycott_risk defaultConfig 0 0 ≤ score_boycott_risk defaultConfig 0 1) ∧
    0 ≤ score_boycott_risk defaultConfig 0 0 ∧
    score_boycott_risk defaultConfig 0 0 ≤ 1 ∧
    (∀ (raw : String) (cfg : Config),
      (analyze raw cfg).risk_signals.total_messages = 0 →
      (analyze raw cfg).risk_signals.boycott_risk = 0) :=
  scorer_contract 0 0 1 1 (by norm_num) (by norm_num) (by norm_num) (by norm_num)
    (by norm_num) (by norm_num) (by norm_num) (by norm_num)

/-- C3 counterexample: the analysis endpoint does not accept an empty
content string — `AnalyzeDto`'s `MinLength(1)` fails on `""`, so the
pipeline answers with the validation error, not with the engine's
default result. -/
theorem empty_content_fails_validation :
    validateContent "" = false ∧
    analyzeTextPipeline ""
      = Except.error
          (NestError.badRequest "content must be longer than or equal to 1 characters") := by
  constructor <;> rfl

/-- C3 (amended): analyzing the empty string with the core engine
succeeds and yields the default result — `total_messages = 0`,
`boycott_risk = 0`, `label = NONE`, `potential_target = null`,
`target_mentions = []` — while the HTTP endpoint's `AnalyzeDto`
validation (`MinLength(1)`) rejects an empty content string. -/
theorem analyze_empty_defaults :
    analyze "" defaultConfig =
      { label := "NONE"
        risk_signals :=
          { boycott_risk := 0, keyword_ratio := 0, sender_concentration := 0
            total_messages := 0, boycott_messages := 0 }
        per_sender_stats := []
        potential_target := none
        target_mentions := [] } ∧
    validateContent "" = false := by
  have hel : analyzeEligible "" defaultConfig = [] := by decide
  constructor
  · unfold analyze
    rw [hel]
    norm_num [compute_basic_stats, keywordRatio, senderConcentration, score_boycott_risk,
      classify_boycott, defaultConfig, maxSenderMessages, detect_potential_target,
      sortByCountDesc, countCandidates]
  · rfl

/-- C8 counterexample: the empty string is under the transport cap, yet
it does not reach the engine — `AnalyzeDto`'s `MinLength(1)` validation
rejects it first. -/
theorem undersized_input_blocked :
    "".utf8ByteSize ≤ bodyLimitBytes ∧
    analyzeTextPipeline "" ≠ Except.ok (analyze "" defaultConfig) := by
  constructor
  · decide
  · intro h
    rw [show analyzeTextPipeline ""
        = Except.error
            (NestError.badRequest "content must be longer than or equal to 1 characters")
      from rfl] at h
    exact Except.noConfusion h

/-- C8 (amended): the transport layer's body cap is `5mb` = 5·2²⁰ bytes
and any non-empty input under that cap reaches the engine unchanged;
the core itself imposes no upper bound on input length — inputs of
every length are analyzed to a well-shaped result.  (The validation
layer additionally rejects empty content.) -/
theorem transport_cap_core_unbounded :
    bodyLimitBytes = 5 * 1024 * 1024 ∧
    (∀ raw : String, raw.utf8ByteSize ≤ bodyLimitBytes → validateContent raw = true →
      analyzeTextPipeline raw = Except.ok (analyze raw defaultConfig)) ∧
    (∀ n : Nat, ∃ raw : String, n ≤ raw.length ∧
      analysisResultShape (analysisResultToJson (analyze raw defaultConfig)) = true) := by
  refine ⟨rfl, ?_, ?_⟩
  · intro raw hsize hv
    unfold analyzeTextPipeline
    rw [if_neg (Nat.not_lt.mpr hsize), if_pos hv]
  · intro n
    refine ⟨String.mk (List.replicate n 'a'), ?_, analysisResultShape_toJson _⟩
    simp [String.length]

/-- Witness for C8 at the two-byte input `"hi"` and at length 3. -/
theorem transport_cap_core_unbounded_witness :
    ("hi".utf8ByteSize ≤ bodyLimitBytes ∧ validateContent "hi" = true) ∧
    analyzeTextPipeline "hi" = Except.ok (analyze "hi" defaultConfig) ∧
    ∃ raw : String, 3 ≤ raw.length ∧
      analysisResultShape (analysisResultToJson (analyze raw defaultConfig)) = true :=
  ⟨⟨by decide, by decide⟩,
    transport_cap_core_unbounded.2.1 "hi" (by decide) (by decide),
    transport_cap_core_unbounded.2.2 3⟩

/-- C6: with `OPENAI_API_KEY` unset the alternate LLM path fails with
`ServiceUnavailableException('OpenAI not configured')` — uniformly in
whatever the model round trip would have produced, i.e. without
contacting the model — while the keyword path's behaviour does not
depend on the server's credential state at all. -/
theorem missing_key_service_unavailable (ctx : ServerCtx) (content : String)
    (outcome outcome' : Except String ModelJson) (res : HttpResponse)
    (hkey : ctx.env_key = none) (hv : validateContent content = true) :
    analyzeTextAIEndpoint ctx content outcome
        = Except.error (NestError.serviceUnavailable "OpenAI not configured") ∧
    analyzeTextAIEndpoint ctx content outcome
        = analyzeTextAIEndpoint ctx content outcome' ∧
    (∀ ctx' : ServerCtx, analyzeTextEndpoint ctx content res
        = analyzeTextEndpoint ctx' content res) := by
  refine ⟨?_, ?_, fun ctx' => ?_⟩ <;>
    simp [analyzeTextAIEndpoint, analyzeWithOpenAI, mkOpenAIClient,
      analyzeTextEndpoint, hkey, hv]

/-- Witness for C6 with no key in the environment and the content
`"hi"`. -/
theorem missing_key_service_unavailable_witness :
    analyzeTextAIEndpoint ⟨none⟩ "hi" (Except.error "boom")
        = Except.error (NestError.serviceUnavailable "OpenAI not configured") ∧
    analyzeTextAIEndpoint ⟨none⟩ "hi" (Except.error "boom")
        = analyzeTextAIEndpoint ⟨none⟩ "hi"
            (Except.ok ⟨none, none, none, none, none, none⟩) ∧
    (∀ ctx' : ServerCtx,
      analyzeTextEndpoint ⟨none⟩ "hi" ⟨true, 200, "", Json.null⟩
        = analyzeTextEndpoint ctx' "hi" ⟨true, 200, "", Json.null⟩) :=
  missing_key_service_unavailable ⟨none⟩ "hi" (Except.error "boom")
    (Except.ok ⟨none, none, none, none, none, none⟩) ⟨true, 200, "", Json.null⟩
    rfl (by decide)

/-- C9: `proxyAnalyze` never throws — a non-OK backend response becomes
`{error: 'detection_error', status, detail}` with `detail` the response
body truncated to at most 500 characters, and an OK response's JSON body
is returned unchanged. -/
theorem proxyAnalyze_contract (res : HttpResponse) :
    (res.ok = false →
      proxyAnalyze res
          = Json.jobj
              [("error", Json.jstr "detection_error"),
               ("status", Json.jnum res.status),
               ("detail", Json.jstr (jsSlice res.bodyText 500))] ∧
      (jsSlice res.bodyText 500).length ≤ 500) ∧
    (res.ok = true → proxyAnalyze res = res.bodyJson) := by
  constructor
  · intro h
    refine ⟨by simp [proxyAnalyze, h], ?_⟩
    show (res.bodyText.data.take 500).length ≤ 500
    exact List.length_take_le 500 res.bodyText.data
  · intro h
    simp [proxyAnalyze, h]

/-- Witness for C9 at a 502 response with body `"oops"` and at an OK
response carrying `true` as its JSON body. -/
theorem proxyAnalyze_contract_witness :
    (proxyAnalyze ⟨false, 502, "oops", Json.null⟩
        = Json.jobj
            [("error", Json.jstr "detection_error"),
             ("status", Json.jnum 502),
             ("detail", Json.jstr (jsSlice "oops" 500))] ∧
      (jsSlice "oops" 500).length ≤ 500) ∧
    proxyAnalyze ⟨true, 200, "", Json.jbool true⟩ = Json.jbool true :=
  ⟨(proxyAnalyze_contract ⟨false, 502, "oops", Json.null⟩).1 rfl,
    (proxyAnalyze_contract ⟨true, 200, "", Json.jbool true⟩).2 rfl⟩

/-- C7: every successful result of the alternate LLM path is the
`buildAIResult` object; serialized, it carries exactly the keys
`source, label, boycott_detected, confidence, risk_level, reasoning,
boycott_details, potential_targets, model_used` — a shape that fails the
core's `AnalysisResult` check — and every key the model omits is filled
with its fixed default (`false`, `0`, `'none'`, `''`, `''`, `[]`). -/
theorem ai_result_contract (parsed : ModelJson) (key : String) :
    analyzeWithOpenAI (some key) (Except.ok parsed)
        = Except.ok (buildAIResult parsed) ∧
    jsonKeys (aiResultToJson (buildAIResult parsed))
        = ["source", "label", "boycott_detected", "confidence", "risk_level",
           "reasoning", "boycott_details", "potential_targets", "model_used"] ∧
    analysisResultShape (aiResultToJson (buildAIResult parsed)) = false ∧
    (parsed.boycott_detected = none → (buildAIResult parsed).boycott_detected = false) ∧
    (parsed.confidence = none → (buildAIResult parsed).confidence = 0) ∧
    (parsed.risk_level = none → (buildAIResult parsed).risk_level = "none") ∧
    (parsed.reasoning = none → (buildAIResult parsed).reasoning = "") ∧
    (parsed.boycott_details = none → (buildAIResult parsed).boycott_details = "") ∧
    (parsed.potential_targets = none → (buildAIResult parsed).potential_targets = []) := by
  refine ⟨rfl, rfl, rfl, ?_, ?_, ?_, ?_, ?_, ?_⟩ <;>
    (intro h; simp [buildAIResult, h])

/-- Witness for C7 at the model reply that omits every key. -/
theorem ai_result_contract_witness :
    analyzeWithOpenAI (some "k") (Except.ok ⟨none, none, none, none, none, none⟩)
        = Except.ok (buildAIResult ⟨none, none, none, none, none, none⟩) ∧
    (buildAIResult ⟨none, none, none, none, none, none⟩).boycott_detected = false ∧
    (buildAIResult ⟨none, none, none, none, none, none⟩).confidence = 0 ∧
    (buildAIResult ⟨none, none, none, none, none, none⟩).risk_level = "none" ∧
    (buildAIResult ⟨none, none, none, none, none, none⟩).reasoning = "" ∧
    (buildAIResult ⟨none, none, none, none, none, none⟩).boycott_details = "" ∧
    (buildAIResult ⟨none, none, none, none, none, none⟩).potential_targets = [] := by
  have h := ai_result_contract ⟨none, none, none, none, none, none⟩ "k"
  exact ⟨h.1, h.2.2.2.1 rfl, h.2.2.2.2.1 rfl, h.2.2.2.2.2.1 rfl,
    h.2.2.2.2.2.2.1 rfl, h.2.2.2.2.2.2.2.1 rfl, h.2.2.2.2.2.2.2.2 rfl⟩

/-- C10: the alternate path's `label` is always the model's
`risk_level` (default `'unknown'`) uppercased plus `' risk'`, while the
`risk_level` field defaults to `'none'`; when the model omits
`risk_level` the object carries `label = 'UNKNOWN risk'` together with
`risk_level = 'none'`, and the two fields disagree. -/
theorem ai_label_risk_level_mismatch (parsed : ModelJson) :
    (buildAIResult parsed).label
        = jsToUpper (parsed.risk_level.getD "unknown") ++ " risk" ∧
    (parsed.risk_level = none →
      (buildAIResult parsed).label = "UNKNOWN risk" ∧
      (buildAIResult parsed).risk_level = "none" ∧
      (buildAIResult parsed).label
          ≠ jsToUpper (buildAIResult parsed).risk_level ++ " risk") := by
  refine ⟨rfl, fun h => ⟨?_, ?_, ?_⟩⟩ <;> simp [buildAIResult, h] <;> decide

/-- Witness for C10 at the model reply that omits `risk_level`. -/
theorem ai_label_risk_level_mismatch_witness :
    (buildAIResult ⟨none, none, none, none, none, none⟩).label = "UNKNOWN risk" ∧
    (buildAIResult ⟨none, none, none, none, none, none⟩).risk_level = "none" ∧
    (buildAIResult ⟨none, none, none, none, none, none⟩).label
        ≠ jsToUpper (buildAIResult ⟨none, none, none, none, none, none⟩).risk_level
            ++ " risk" :=
  (ai_label_risk_level_mismatch ⟨none, none, none, none, none, none⟩).2 rfl

end WhatSafe
